import Mathlib

/-!
Shallow embedding of the SmallCppSQLiteWrapper sources (MSQLite3.h and MSQLite3.cpp).

The underlying sqlite3 engine is external to the repository, so engine responses
(status codes, error messages, step outcomes) are modelled as explicit function
parameters, and the calls the wrapper issues to the engine are returned as traces
so that theorems can speak about which engine facilities were invoked.
-/

set_option autoImplicit false

namespace MSQLite3

/-- sqlite3 status code SQLITE_OK. -/
def SQLITE_OK : Int := 0

/-- sqlite3 status code SQLITE_ROW: sqlite3_step has a row ready. -/
def SQLITE_ROW : Int := 100

/-- sqlite3 status code SQLITE_DONE: sqlite3_step has finished executing. -/
def SQLITE_DONE : Int := 101

/-- Error hierarchy of MSQLite3.h: SQLite3Error is the generic error carrying a
message (engine message text or a wrapper-authored message), and ColumnNotFound is
the derived class raised by ResultSet get for a missing column name, carrying the
column name.  The two constructors model the two catchable C++ exception classes. -/
inductive SQLite3Err where
  | sqlite3Error (msg : String)
  | columnNotFound (colName : String)
deriving DecidableEq

/-- A row of a ResultSet: the contents of one std::unordered_map from column name
to textual value, modelled as an association list in insertion order. -/
abbrev Row := List (String × String)

/-- std::unordered_map insert: inserts the pair only when the key is not present
(insert does not overwrite an existing mapping). -/
def Row.insert (r : Row) (key val : String) : Row :=
  if (r.find? (fun p => p.1 == key)).isSome then r else r ++ [(key, val)]

/-- std::unordered_map find: the value mapped to the key, if present. -/
def Row.find (r : Row) (key : String) : Option String :=
  (r.find? (fun p => p.1 == key)).map (fun p => p.2)

/-- ResultSet state: the vector of rows (container) and the cursor (iterator),
modelled as an index into the container; index = length models the end iterator. -/
structure ResultSet where
  container : List Row
  iterator : Nat
deriving DecidableEq

/-- ResultSet default constructor: empty container, iterator = begin (which for an
empty container coincides with end). -/
def ResultSet.empty : ResultSet :=
  { container := [], iterator := 0 }

/-- ResultSet addRecord(Container::value_type&&): emplace_back the record and set
the iterator back to container.begin(). -/
def ResultSet.addRecord (rs : ResultSet) (record : Row) : ResultSet :=
  { container := rs.container ++ [record], iterator := 0 }

/-- ResultSet addRecord(int count, const char** row, const char** cols): when count
is nonzero, build a map inserting (cols[i], row[i] ? row[i] : "") for each i and
append it; when count is zero, do nothing.  The two parallel C arrays of length
count are modelled as one list of (column name, nullable value) cells. -/
def ResultSet.addRecordArrays (rs : ResultSet) (cells : List (String × Option String)) :
    ResultSet :=
  if cells.length ≠ 0 then
    rs.addRecord (cells.foldl (fun m c => Row.insert m c.1 (c.2.getD "")) [])
  else rs

/-- ResultSet operator bool: container.size() > 0 && iterator != container.end(). -/
def ResultSet.toBool (rs : ResultSet) : Bool :=
  decide (rs.container.length > 0) && (rs.iterator != rs.container.length)

/-- ResultSet next: advance the iterator unless already at end; return whether the
new position is not the end. -/
def ResultSet.next (rs : ResultSet) : ResultSet × Bool :=
  let it := if rs.iterator != rs.container.length then rs.iterator + 1 else rs.iterator
  ({ rs with iterator := it }, it != rs.container.length)

/-- ResultSet count: container.size(). -/
def ResultSet.count (rs : ResultSet) : Nat :=
  rs.container.length

/-- Numeric value of a list of decimal digit characters. -/
def digitsVal (ds : List Char) : Nat :=
  ds.foldl (fun a c => a * 10 + (c.toNat - 48)) 0

/-- istringstream extraction into an int (the generic ResultSet get template with
T = int): skip leading whitespace, accept an optional sign, then a maximal run of
digits; when no digit is available extraction fails and the zero-initialized value
0 is kept. -/
def extractInt (s : String) : Int :=
  match s.data.dropWhile (fun c => c.isWhitespace) with
  | '-' :: t =>
    if (t.takeWhile (fun c => c.isDigit)).isEmpty then 0
    else -(digitsVal (t.takeWhile (fun c => c.isDigit)) : Int)
  | '+' :: t =>
    if (t.takeWhile (fun c => c.isDigit)).isEmpty then 0
    else (digitsVal (t.takeWhile (fun c => c.isDigit)) : Int)
  | t =>
    if (t.takeWhile (fun c => c.isDigit)).isEmpty then 0
    else (digitsVal (t.takeWhile (fun c => c.isDigit)) : Int)

/-- std::getline from an istringstream positioned at the start of the stored text:
read everything up to the first newline (for newline-free text, the whole text,
embedded spaces included). -/
def getlineModel (s : String) : String :=
  String.mk (s.data.takeWhile (fun c => c != '\n'))

/-- std::tm fields used by the wrapper (seconds, minutes, hours, day of month,
months since January, years since 1900). -/
structure Tm where
  tm_sec : Int
  tm_min : Int
  tm_hour : Int
  tm_mday : Int
  tm_mon : Int
  tm_year : Int
deriving DecidableEq

/-- Zero-initialized std::tm, as produced by std::tm rval{}. -/
def Tm.zero : Tm :=
  { tm_sec := 0, tm_min := 0, tm_hour := 0, tm_mday := 0, tm_mon := 0, tm_year := 0 }

/-- Read at least one and at most maxw decimal digits from the character stream,
returning the parsed number and the remaining characters. -/
def readNum (maxw : Nat) (cs : List Char) : Option (Nat × List Char) :=
  let ds := (cs.takeWhile (fun c => c.isDigit)).take maxw
  if ds.isEmpty then none
  else some (digitsVal ds, cs.drop ds.length)

/-- Match one exact literal character at the head of the stream. -/
def expectChar (c : Char) (cs : List Char) : Option (List Char) :=
  match cs with
  | c2 :: t => if c2 = c then some t else none
  | [] => none

/-- std::get_time with format "%Y-%m-%d %H:%M:%S": numeric fields are digit runs
(four digits for the year, two for the others), the literal separators must match
exactly, and whitespace in the format skips whitespace in the input.  %Y stores
year minus 1900 in tm_year and %m stores month minus 1 in tm_mon, as std::tm
prescribes.  Returns none when the input does not match the pattern. -/
def getTimeModel (s : String) : Option Tm := do
  let (y, r1) ← readNum 4 (s.data.dropWhile (fun c => c.isWhitespace))
  let r2 ← expectChar '-' r1
  let (mo, r3) ← readNum 2 r2
  let r4 ← expectChar '-' r3
  let (d, r5) ← readNum 2 r4
  let r6 := r5.dropWhile (fun c => c.isWhitespace)
  let (h, r7) ← readNum 2 r6
  let r8 ← expectChar ':' r7
  let (mi, r9) ← readNum 2 r8
  let r10 ← expectChar ':' r9
  let (se, _) ← readNum 2 r10
  pure { tm_sec := (se : Int), tm_min := (mi : Int), tm_hour := (h : Int),
         tm_mday := (d : Int), tm_mon := (mo : Int) - 1, tm_year := (y : Int) - 1900 }

/-- Body of ResultSet get on one row: look the column name up in the row; when
present, convert the stored text with the given extraction; when absent, throw
ColumnNotFound(name). -/
def rowGet {α : Type} (extract : String → α) (row : Row) (name : String) :
    Except SQLite3Err α :=
  match Row.find row name with
  | some v => Except.ok (extract v)
  | none => Except.error (SQLite3Err.columnNotFound name)

/-- ResultSet get: dereference the cursor and look the column up in the current
row.  Dereferencing a past-the-end iterator is undefined behavior in the source;
that case is modelled as none and is never exercised by the theorems, which all
assume the cursor is on a valid row. -/
def ResultSet.getWith {α : Type} (extract : String → α) (rs : ResultSet)
    (name : String) : Option (Except SQLite3Err α) :=
  (rs.container.get? rs.iterator).map (fun row => rowGet extract row name)

/-- ResultSet get with T = int (generic template instance, stream extraction). -/
def ResultSet.getInt (rs : ResultSet) (name : String) :
    Option (Except SQLite3Err Int) :=
  ResultSet.getWith extractInt rs name

/-- ResultSet get specialization for std::string: std::getline so that whitespace
is preserved. -/
def ResultSet.getString (rs : ResultSet) (name : String) :
    Option (Except SQLite3Err String) :=
  ResultSet.getWith getlineModel rs name

/-- ResultSet get specialization for std::tm: std::get_time with pattern
"%Y-%m-%d %H:%M:%S" into a zero-initialized std::tm; a failed parse keeps the
zero-initialized value. -/
def ResultSet.getTm (rs : ResultSet) (name : String) :
    Option (Except SQLite3Err Tm) :=
  ResultSet.getWith (fun v => (getTimeModel v).getD Tm.zero) rs name

/-- Parameter values accepted by PreparedStatement prepareParam overloads: the
closed set of semantic types dispatched by overload resolution.  Floating point
payloads are modelled by their exact rational value, const char pointers by an
Option that is none for a null pointer. -/
inductive SQLParam where
  | floatV (v : Rat)
  | intV (v : Int)
  | int64V (v : Int)
  | cstrV (v : Option String)
  | strV (v : String)
  | charV (c : Char)
  | boolV (b : Bool)
deriving DecidableEq

/-- Engine binding calls issued by prepareParam: one constructor per sqlite3 bind
facility used by the wrapper.  bindText carries the length argument passed to
sqlite3_bind_text (-1 means nul-terminated). -/
inductive BindCall where
  | bindDouble (index : Nat) (v : Rat)
  | bindInt (index : Nat) (v : Int)
  | bindInt64 (index : Nat) (v : Int)
  | bindText (index : Nat) (s : String) (len : Int)
  | bindNull (index : Nat)
deriving DecidableEq

/-- PreparedStatement prepareParam overload set: floating point values go to
sqlite3_bind_double, integral values to sqlite3_bind_int, 64-bit integers to
sqlite3_bind_int64, a const char pointer to sqlite3_bind_text with length -1 when
non-null and to sqlite3_bind_null when null, a std::string to sqlite3_bind_text
with its length, a char to sqlite3_bind_text of that one character with length 1,
and a bool through static_cast to int to sqlite3_bind_int of 0 or 1. -/
def prepareParam : SQLParam → Nat → BindCall
  | SQLParam.floatV v, i => BindCall.bindDouble i v
  | SQLParam.intV v, i => BindCall.bindInt i v
  | SQLParam.int64V v, i => BindCall.bindInt64 i v
  | SQLParam.cstrV none, i => BindCall.bindNull i
  | SQLParam.cstrV (some s), i => BindCall.bindText i s (-1)
  | SQLParam.strV s, i => BindCall.bindText i s (Int.ofNat s.length)
  | SQLParam.charV c, i => BindCall.bindText i (String.singleton c) 1
  | SQLParam.boolV b, i => BindCall.bindInt i (if b then 1 else 0)

/-- Placeholder count computed in the PreparedStatement constructor:
std::count(query.begin(), query.end(), '?'), a literal character count. -/
def countPlaceholders (query : String) : Nat :=
  (query.data.filter (fun c => c == '?')).length

/-- Expansion of the bind parameter pack: each argument in order is bound at index
++index (1-based), the member rc being overwritten with each engine status.  The
engine is modelled as a function from the issued call to its status code.  Returns
the trace of issued calls and the final value of rc. -/
def bindParams (engine : BindCall → Int) (rc : Int) (index : Nat) :
    List SQLParam → List BindCall × Int
  | [] => ([], rc)
  | p :: ps =>
    let call := prepareParam p (index + 1)
    let rc2 := engine call
    let r := bindParams engine rc2 (index + 1) ps
    (call :: r.1, r.2)

/-- Outcome of a PreparedStatement bind call: the trace of engine bind calls
issued and the error thrown, if any. -/
structure BindResult where
  calls : List BindCall
  err : Option SQLite3Err
deriving DecidableEq

/-- PreparedStatement bind: throw the parameter-count error when the argument
count differs from paramCount (before issuing any engine call); otherwise bind
every argument in order and afterwards throw SQLite3Error(sqlite3_errmsg(db)) iff
the final rc is not SQLITE_OK.  errmsg models sqlite3_errmsg(db) at the point of
the check and rc0 the value of the rc member on entry. -/
def PreparedStatement.bind (engine : BindCall → Int) (errmsg : String)
    (paramCount : Nat) (rc0 : Int) (args : List SQLParam) : BindResult :=
  if args.length ≠ paramCount then
    { calls := [],
      err := some (SQLite3Err.sqlite3Error
        "Count of arguments does not equal count of questionmarks") }
  else
    let r := bindParams engine rc0 0 args
    { calls := r.1,
      err := if r.2 ≠ SQLITE_OK then some (SQLite3Err.sqlite3Error errmsg) else none }

/-- PreparedStatement handle state: the non-owning db pointer, the owned stmt
pointer (none models nullptr), the rc member and the placeholder count.  Handles
are modelled as abstract numeric identifiers. -/
structure PSState where
  db : Option Nat
  stmt : Option Nat
  rc : Int
  paramCount : Nat
deriving DecidableEq

/-- PreparedStatement destructor: sqlite3_finalize(stmt) iff stmt is non-null;
returns the list of handles finalized. -/
def PreparedStatement.destruct (ps : PSState) : List Nat :=
  match ps.stmt with
  | some h => [h]
  | none => []

/-- PreparedStatement move assignment: finalize the stmt handle already owned by
the destination when non-null, copy db, rc, stmt and paramCount from the source,
then null the source db and stmt pointers.  Returns the new destination state, the
new source state and the list of handles finalized. -/
def PreparedStatement.moveAssign (dest src : PSState) : PSState × PSState × List Nat :=
  let finalized := match dest.stmt with
    | some h => [h]
    | none => []
  ({ db := src.db, stmt := src.stmt, rc := src.rc, paramCount := src.paramCount },
   { db := none, stmt := none, rc := src.rc, paramCount := src.paramCount },
   finalized)

/-- PreparedStatement move constructor: delegates to move assignment on a
destination whose members are still uninitialized; the indeterminate initial
member values are modelled by an arbitrary garbage state. -/
def PreparedStatement.moveConstruct (garbage src : PSState) :
    PSState × PSState × List Nat :=
  PreparedStatement.moveAssign garbage src

/-- Record construction in PreparedStatement executeQuery: iterate the columns in
index order and insert (column name, column text) into the record. -/
def buildRecord (cols : List (String × String)) : Row :=
  cols.foldl (fun record c => Row.insert record c.1 c.2) []

/-- Loop of PreparedStatement executeQuery: while sqlite3_step returns SQLITE_ROW,
build the record from the row columns and addRecord it; stop at the first step
status that is not SQLITE_ROW (done or error alike) and return the ResultSet
collected so far.  The engine step stream is modelled as a list of (status,
columns) pairs; an exhausted list models the stream ending. -/
def executeQueryLoop : List (Int × List (String × String)) → ResultSet → ResultSet
  | (st, cols) :: rest, rs =>
    if st == SQLITE_ROW then executeQueryLoop rest (rs.addRecord (buildRecord cols))
    else rs
  | [], rs => rs

/-- PreparedStatement executeQuery: run the step loop starting from a fresh
ResultSet and return it; no error is ever thrown. -/
def PreparedStatement.executeQuery (steps : List (Int × List (String × String))) :
    ResultSet :=
  executeQueryLoop steps ResultSet.empty

/-- SQLite3 execute(const char* sql): when sql is a null pointer (modelled by
none) throw SQLite3Error("No sql parameter") without calling the engine;
otherwise call sqlite3_exec on sql (the engine returns a status and the error
message it stores through the errMsg out-parameter) and throw SQLite3Error(errMsg)
iff the status is not SQLITE_OK.  Returns the error thrown, if any, and the trace
of sql texts passed to sqlite3_exec. -/
def SQLite3.execute (engineExec : String → Int × String) (sql : Option String) :
    Option SQLite3Err × List String :=
  match sql with
  | some s =>
    let r := engineExec s
    (if r.1 ≠ SQLITE_OK then some (SQLite3Err.sqlite3Error r.2) else none, [s])
  | none => (some (SQLite3Err.sqlite3Error "No sql parameter"), [])

/-- SQLite3 constructor: result = sqlite3_open(dbPath); isOpened = (result ==
SQLITE_OK); when a creation statement is supplied, result is overwritten with the
status of sqlite3_exec on it; finally throw iff result != SQLITE_OK, with a
message holding the result code and errMsg.  The open status is an engine input;
engineExec models sqlite3_exec, returning a status and the message stored through
errMsg.  In the branch where no creation statement was supplied, errMsg is still
the null pointer and the message concatenation in the source is undefined
behavior; the model keeps the defined prefix of the message there.  Returns the
error thrown, if any, and the isOpened flag. -/
def SQLite3.construct (openResult : Int) (createStmt : Option String)
    (engineExec : String → Int × String) : Option SQLite3Err × Bool :=
  let isOpened := openResult == SQLITE_OK
  match createStmt with
  | some s =>
    let r := engineExec s
    (if r.1 ≠ SQLITE_OK then
      some (SQLite3Err.sqlite3Error
        ("Database can\x27t be initialized: \nResult: " ++ toString r.1 ++ "\t" ++ r.2))
    else none, isOpened)
  | none =>
    (if openResult ≠ SQLITE_OK then
      some (SQLite3Err.sqlite3Error
        ("Database can\x27t be initialized: \nResult: " ++ toString openResult ++ "\t"))
    else none, isOpened)

-- Helper: bindParams issues exactly one engine call per supplied argument.
theorem bindParams_calls_length (engine : BindCall → Int) (args : List SQLParam) :
    ∀ (rc : Int) (i : Nat), ((bindParams engine rc i args).1).length = args.length := by
  induction args with
  | nil =>
    intro rc i
    rfl
  | cons p ps ih =>
    intro rc i
    simp [bindParams, ih]

-- Helper: the final rc after binding a non-empty argument list is the engine
-- status of the very last binding call, whatever happened before.
theorem bindParams_snd_append (engine : BindCall → Int) (front : List SQLParam)
    (lastp : SQLParam) :
    ∀ (rc : Int) (i : Nat),
      (bindParams engine rc i (front ++ [lastp])).2
        = engine (prepareParam lastp (i + front.length + 1)) := by
  induction front with
  | nil =>
    intro rc i
    simp [bindParams]
  | cons p ps ih =>
    intro rc i
    have h1 : (bindParams engine rc i ((p :: ps) ++ [lastp])).2
        = (bindParams engine (engine (prepareParam p (i + 1))) (i + 1)
            (ps ++ [lastp])).2 := rfl
    rw [h1, ih]
    congr 2
    simp only [List.length_cons]
    omega

/-- C1 (as stated, refuted): with the empty (non-null) sql string and an engine
reporting success, execute does invoke the engine exec facility (the trace is
[""], not empty) and does not fail, contradicting the claim that a null or empty
sql fails with the no-sql-parameter error without contacting the engine. -/
theorem execute_empty_sql_counterexample :
    (SQLite3.execute (fun _ => (SQLITE_OK, "")) (some "")).2 = [""] ∧
    (SQLite3.execute (fun _ => (SQLITE_OK, "")) (some "")).1 = none :=
  ⟨rfl, rfl⟩

/-- C1 (amended): for a null sql pointer, execute fails with the
"No sql parameter" error without invoking the engine exec facility; for every
non-null sql, including the empty string, the engine is invoked exactly on that
sql and execute fails iff the engine reports non-success. -/
theorem execute_null_guard_spec (engineExec : String → Int × String)
    (sql : Option String) :
    (sql = none →
      SQLite3.execute engineExec sql
        = (some (SQLite3Err.sqlite3Error "No sql parameter"), [])) ∧
    (∀ s, sql = some s →
      (SQLite3.execute engineExec sql).2 = [s] ∧
      ((SQLite3.execute engineExec sql).1 ≠ none ↔ (engineExec s).1 ≠ SQLITE_OK)) := by
  constructor
  · intro h
    subst h
    rfl
  · intro s h
    subst h
    refine ⟨rfl, ?_⟩
    simp only [SQLite3.execute]
    by_cases h2 : (engineExec s).1 ≠ SQLITE_OK <;> simp [h2]

/-- C1 witness: the amended theorem applied at a null sql and at the empty sql
with an always-failing engine. -/
theorem execute_null_guard_spec_witness :
    SQLite3.execute (fun _ => (SQLITE_OK, "")) none
      = (some (SQLite3Err.sqlite3Error "No sql parameter"), []) ∧
    (SQLite3.execute (fun _ => (1, "boom")) (some "")).1 ≠ none :=
  ⟨(execute_null_guard_spec (fun _ => (SQLITE_OK, "")) none).1 rfl,
   (((execute_null_guard_spec (fun _ => (1, "boom")) (some "")).2 "" rfl).2).mpr
     (by decide)⟩

/-- C2 (as stated, refuted): when the open step reports non-success (code 14) but
a creation script is supplied and its execution reports success, construction
completes normally (no error is thrown), although an engine step reported
non-success; the result of the open step is overwritten and masked. -/
theorem construct_masked_open_failure_counterexample :
    (14 : Int) ≠ SQLITE_OK ∧
    (SQLite3.construct 14 (some "CREATE TABLE t(x INTEGER)")
        (fun _ => (SQLITE_OK, ""))).1 = none ∧
    (SQLite3.construct 14 (some "CREATE TABLE t(x INTEGER)")
        (fun _ => (SQLITE_OK, ""))).2 = false :=
  ⟨by decide, rfl, rfl⟩

/-- C2 (amended): construction throws iff the last engine step performed reports
non-success: the creation-script execution when a script is supplied, otherwise
the open; the isOpened flag still records whether the open itself succeeded, so
an open failure followed by a successful creation-script execution is masked. -/
theorem construct_result_check_spec (openResult : Int) (createStmt : Option String)
    (engineExec : String → Int × String) :
    ((SQLite3.construct openResult createStmt engineExec).2
        = (openResult == SQLITE_OK)) ∧
    (createStmt = none →
      ((SQLite3.construct openResult createStmt engineExec).1 ≠ none ↔
        openResult ≠ SQLITE_OK)) ∧
    (∀ s, createStmt = some s →
      ((SQLite3.construct openResult createStmt engineExec).1 ≠ none ↔
        (engineExec s).1 ≠ SQLITE_OK)) := by
  refine ⟨?_, ?_, ?_⟩
  · cases createStmt <;> rfl
  · intro h
    subst h
    simp only [SQLite3.construct]
    by_cases h2 : openResult ≠ SQLITE_OK <;> simp [h2]
  · intro s h
    subst h
    simp only [SQLite3.construct]
    by_cases h2 : (engineExec s).1 ≠ SQLITE_OK <;> simp [h2]

/-- C2 witness: the amended theorem applied at a failing open with no creation
script, and at a successful open whose creation script fails. -/
theorem construct_result_check_spec_witness :
    (SQLite3.construct 14 none (fun _ => (SQLITE_OK, ""))).1 ≠ none ∧
    (SQLite3.construct 0 (some "CREATE TABLE t(x INTEGER)")
        (fun _ => (1, "syntax error"))).1 ≠ none :=
  ⟨((construct_result_check_spec 14 none (fun _ => (SQLITE_OK, ""))).2.1 rfl).mpr
      (by decide),
   ((construct_result_check_spec 0 (some "CREATE TABLE t(x INTEGER)")
        (fun _ => (1, "syntax error"))).2.2 "CREATE TABLE t(x INTEGER)" rfl).mpr
      (by decide)⟩

/-- C3: prepareParam on a null const char pointer issues a null binding; on a
non-null const char pointer it issues a text binding (length -1); on an owned
std::string it issues a text binding with the string length, in particular a
length-0 text binding for the empty string; and a null binding is distinguishable
from any text binding. -/
theorem prepareParam_text_null_spec (i : Nat) (s : String) :
    prepareParam (SQLParam.cstrV none) i = BindCall.bindNull i ∧
    prepareParam (SQLParam.cstrV (some s)) i = BindCall.bindText i s (-1) ∧
    prepareParam (SQLParam.strV s) i = BindCall.bindText i s (Int.ofNat s.length) ∧
    prepareParam (SQLParam.strV "") i = BindCall.bindText i "" 0 ∧
    (∀ t l, BindCall.bindNull i ≠ BindCall.bindText i t l) := by
  refine ⟨rfl, rfl, rfl, rfl, ?_⟩
  intro t l h
  exact BindCall.noConfusion h

/-- C4: with paramCount the number of literal question mark characters counted at
construction, a bind call with exactly that many values never takes the
parameter-count error path (every supplied value is bound, and any error thrown
is the engine-message error), while a bind call with any other number of values
throws the parameter-count error before any parameter is bound (the engine call
trace is empty). -/
theorem bind_param_count_spec (query : String) (engine : BindCall → Int)
    (errmsg : String) (rc0 : Int) (args : List SQLParam) :
    (args.length = countPlaceholders query →
      (PreparedStatement.bind engine errmsg (countPlaceholders query) rc0
          args).calls.length = args.length ∧
      ∀ e, (PreparedStatement.bind engine errmsg (countPlaceholders query) rc0
          args).err = some e → e = SQLite3Err.sqlite3Error errmsg) ∧
    (args.length ≠ countPlaceholders query →
      (PreparedStatement.bind engine errmsg (countPlaceholders query) rc0 args).err
        = some (SQLite3Err.sqlite3Error
            "Count of arguments does not equal count of questionmarks") ∧
      (PreparedStatement.bind engine errmsg (countPlaceholders query) rc0 args).calls
        = []) := by
  constructor
  · intro h
    have hg : ¬ (args.length ≠ countPlaceholders query) := by simp [h]
    constructor
    · simp only [PreparedStatement.bind, if_neg hg]
      exact bindParams_calls_length engine args rc0 0
    · intro e he
      simp only [PreparedStatement.bind, if_neg hg] at he
      by_cases h2 : (bindParams engine rc0 0 args).2 ≠ SQLITE_OK
      · rw [if_pos h2] at he
        exact (Option.some.inj he).symm
      · rw [if_neg h2] at he
        simp at he
  · intro h
    simp [PreparedStatement.bind, if_pos h]

/-- C4 witness: the theorem applied to a two-placeholder query with two values
(both values bound) and with one value (parameter-count error, no call issued). -/
theorem bind_param_count_spec_witness :
    (PreparedStatement.bind (fun _ => SQLITE_OK) "engine message"
        (countPlaceholders "INSERT INTO t(a,b) VALUES(?,?)") 0
        [SQLParam.intV 1, SQLParam.strV "x"]).calls.length = 2 ∧
    (PreparedStatement.bind (fun _ => SQLITE_OK) "engine message"
        (countPlaceholders "INSERT INTO t(a,b) VALUES(?,?)") 0
        [SQLParam.intV 1]).err
      = some (SQLite3Err.sqlite3Error
          "Count of arguments does not equal count of questionmarks") :=
  ⟨((bind_param_count_spec "INSERT INTO t(a,b) VALUES(?,?)" (fun _ => SQLITE_OK)
      "engine message" 0 [SQLParam.intV 1, SQLParam.strV "x"]).1 (by decide)).1,
   ((bind_param_count_spec "INSERT INTO t(a,b) VALUES(?,?)" (fun _ => SQLITE_OK)
      "engine message" 0 [SQLParam.intV 1]).2 (by decide)).1⟩

/-- C6: for a bind call with the correct number of values (a non-empty list,
written front plus a last value), the engine binding status is checked only once,
after all values are processed: bind throws iff the status of the very last
binding operation is non-success, the only error ever thrown is the engine-message
error, and the outcome is unchanged under any change of the engine statuses of the
earlier binding operations, so an early failure followed by a successful later
binding is not surfaced. -/
theorem bind_last_status_spec (engine : BindCall → Int) (errmsg : String)
    (rc0 : Int) (front : List SQLParam) (lastp : SQLParam) :
    ((PreparedStatement.bind engine errmsg (front ++ [lastp]).length rc0
        (front ++ [lastp])).err ≠ none ↔
      engine (prepareParam lastp (front.length + 1)) ≠ SQLITE_OK) ∧
    (∀ e, (PreparedStatement.bind engine errmsg (front ++ [lastp]).length rc0
        (front ++ [lastp])).err = some e → e = SQLite3Err.sqlite3Error errmsg) ∧
    (∀ engine2 : BindCall → Int,
      engine2 (prepareParam lastp (front.length + 1))
          = engine (prepareParam lastp (front.length + 1)) →
      (PreparedStatement.bind engine2 errmsg (front ++ [lastp]).length rc0
          (front ++ [lastp])).err
        = (PreparedStatement.bind engine errmsg (front ++ [lastp]).length rc0
          (front ++ [lastp])).err) := by
  have hg : ¬ ((front ++ [lastp]).length ≠ (front ++ [lastp]).length) := by simp
  have hsnd : ∀ e : BindCall → Int,
      (bindParams e rc0 0 (front ++ [lastp])).2
        = e (prepareParam lastp (front.length + 1)) := by
    intro e
    simpa using bindParams_snd_append e front lastp rc0 0
  refine ⟨?_, ?_, ?_⟩
  · simp only [PreparedStatement.bind, if_neg hg, hsnd]
    by_cases h2 : engine (prepareParam lastp (front.length + 1)) ≠ SQLITE_OK <;>
      simp [h2]
  · intro e he
    simp only [PreparedStatement.bind, if_neg hg] at he
    by_cases h2 : (bindParams engine rc0 0 (front ++ [lastp])).2 ≠ SQLITE_OK
    · rw [if_pos h2] at he
      exact (Option.some.inj he).symm
    · rw [if_neg h2] at he
      simp at he
  · intro engine2 heq
    simp only [PreparedStatement.bind, if_neg hg, hsnd, heq]

/-- C6 witness: an engine that fails (status 1) exactly on the first binding call
but succeeds on the second; bind with the two values reports no error, so the
early failure is masked. -/
theorem bind_last_status_spec_witness :
    (PreparedStatement.bind
        (fun c => if c = BindCall.bindInt 1 7 then 1 else SQLITE_OK)
        "engine message" ([SQLParam.intV 7] ++ [SQLParam.intV 8]).length 0
        ([SQLParam.intV 7] ++ [SQLParam.intV 8])).err = none := by
  by_contra hne
  exact (bind_last_status_spec
      (fun c => if c = BindCall.bindInt 1 7 then 1 else SQLITE_OK)
      "engine message" 0 [SQLParam.intV 7] (SQLParam.intV 8)).1.mp hne (by decide)

-- Helper: folding addRecordArrays over non-empty records adds one row each.
theorem foldl_addRecordArrays_count (cellsList : List (List (String × Option String))) :
    ∀ (rs : ResultSet), (∀ cells ∈ cellsList, cells ≠ []) →
      (cellsList.foldl ResultSet.addRecordArrays rs).count
        = rs.count + cellsList.length := by
  induction cellsList with
  | nil =>
    intro rs h
    simp
  | cons c t ih =>
    intro rs h
    have hc : c ≠ [] := h c (by simp)
    have ht : ∀ cells ∈ t, cells ≠ [] := fun cells hm => h cells (by simp [hm])
    have h1 : (rs.addRecordArrays c).count = rs.count + 1 := by
      simp [ResultSet.addRecordArrays, ResultSet.addRecord, ResultSet.count, hc]
    simp only [List.foldl_cons]
    rw [ih (rs.addRecordArrays c) ht, h1]
    simp only [List.length_cons]
    omega

/-- C5: folding any sequence of addRecord additions with non-empty records over a
freshly constructed ResultSet leaves count equal to the number of additions, and
every addRecord call, on any ResultSet state (the cursor may have been advanced
arbitrarily), resets the cursor to the first row of the stored sequence, so the
ResultSet reports a valid current row afterwards. -/
theorem resultSet_addRecord_count_rewind
    (cellsList : List (List (String × Option String)))
    (h : ∀ cells ∈ cellsList, cells ≠ []) :
    (cellsList.foldl ResultSet.addRecordArrays ResultSet.empty).count
      = cellsList.length ∧
    (∀ (rs : ResultSet) (record : Row),
      (rs.addRecord record).iterator = 0 ∧ (rs.addRecord record).toBool = true) ∧
    (∀ (rs : ResultSet) (cells : List (String × Option String)), cells ≠ [] →
      (rs.addRecordArrays cells).iterator = 0) := by
  refine ⟨?_, ?_, ?_⟩
  · simpa [ResultSet.empty, ResultSet.count] using
      foldl_addRecordArrays_count cellsList ResultSet.empty h
  · intro rs record
    refine ⟨rfl, ?_⟩
    simp [ResultSet.addRecord, ResultSet.toBool]
  · intro rs cells hc
    simp [ResultSet.addRecordArrays, ResultSet.addRecord, hc]

/-- C5 witness: two additions on a fresh ResultSet give count 2, applying the
theorem at a concrete record list. -/
theorem resultSet_addRecord_count_rewind_witness :
    (([[("a", some "1")], [("b", (none : Option String))]]).foldl
        ResultSet.addRecordArrays ResultSet.empty).count = 2 :=
  (resultSet_addRecord_count_rewind [[("a", some "1")], [("b", none)]]
    (by decide)).1

-- Helper: getline of a newline-free text is the whole text.
theorem takeWhile_no_newline (l : List Char) (h : '\n' ∉ l) :
    l.takeWhile (fun c => c != '\n') = l := by
  induction l with
  | nil => rfl
  | cons c t ih =>
    have hc : c ≠ '\n' := by
      intro hc
      exact h (by simp [hc])
    have ht : '\n' ∉ t := fun hm => h (by simp [hm])
    simp [List.takeWhile_cons, hc, ih ht]

-- Helper: getlineModel returns its input unchanged when it has no newline.
theorem getlineModel_eq_self (v : String) (h : '\n' ∉ v.data) :
    getlineModel v = v := by
  obtain ⟨d⟩ := v
  show String.mk (d.takeWhile (fun c => c != '\n')) = String.mk d
  rw [takeWhile_no_newline d h]

/-- C7: with the cursor on a valid row holding text v for the column, the
std::string specialization returns the getline read of v, hence all of v with
embedded spaces preserved whenever v contains no newline; the std::tm
specialization parses "2024-01-15 10:30:00" with pattern %Y-%m-%d %H:%M:%S to
year 2024, month 1, day 15, hour 10, minute 30, second 0 (std::tm encoding
tm_year 124, tm_mon 0); and the generic instance follows stream extraction, get
of int on "42" returning 42. -/
theorem get_conversions_spec (rs : ResultSet) (row : Row) (name : String)
    (v : String) (hrow : rs.container.get? rs.iterator = some row)
    (hfind : Row.find row name = some v) :
    (ResultSet.getString rs name = some (Except.ok (getlineModel v))) ∧
    ('\n' ∉ v.data → ResultSet.getString rs name = some (Except.ok v)) ∧
    (v = "2024-01-15 10:30:00" →
      ∃ tm : Tm, ResultSet.getTm rs name = some (Except.ok tm) ∧
        tm.tm_year + 1900 = 2024 ∧ tm.tm_mon + 1 = 1 ∧ tm.tm_mday = 15 ∧
        tm.tm_hour = 10 ∧ tm.tm_min = 30 ∧ tm.tm_sec = 0) ∧
    (v = "42" → ResultSet.getInt rs name = some (Except.ok 42)) := by
  have hbase : ∀ {α : Type} (extract : String → α),
      ResultSet.getWith extract rs name = some (Except.ok (extract v)) := by
    intro α extract
    unfold ResultSet.getWith
    rw [hrow]
    simp [rowGet, hfind]
  refine ⟨hbase getlineModel, ?_, ?_, ?_⟩
  · intro h
    have hs := hbase getlineModel
    rw [getlineModel_eq_self v h] at hs
    exact hs
  · intro h
    subst h
    refine ⟨⟨0, 30, 10, 15, 0, 124⟩, ?_, by decide, by decide, by decide,
      by decide, by decide, by decide⟩
    exact hbase (fun w => (getTimeModel w).getD Tm.zero)
  · intro h
    subst h
    exact hbase extractInt

/-- C7 witness: the theorem applied on a concrete row holding a spaced text, a
date-time text and a numeric text. -/
theorem get_conversions_spec_witness :
    ResultSet.getString
        (ResultSet.mk [[("t", "a b c"), ("d", "2024-01-15 10:30:00"), ("n", "42")]] 0)
        "t" = some (Except.ok "a b c") ∧
    ResultSet.getInt
        (ResultSet.mk [[("t", "a b c"), ("d", "2024-01-15 10:30:00"), ("n", "42")]] 0)
        "n" = some (Except.ok 42) ∧
    (∃ tm : Tm, ResultSet.getTm
        (ResultSet.mk [[("t", "a b c"), ("d", "2024-01-15 10:30:00"), ("n", "42")]] 0)
        "d" = some (Except.ok tm) ∧
      tm.tm_year + 1900 = 2024 ∧ tm.tm_mon + 1 = 1 ∧ tm.tm_mday = 15 ∧
      tm.tm_hour = 10 ∧ tm.tm_min = 30 ∧ tm.tm_sec = 0) :=
  ⟨(get_conversions_spec
      (ResultSet.mk [[("t", "a b c"), ("d", "2024-01-15 10:30:00"), ("n", "42")]] 0)
      [("t", "a b c"), ("d", "2024-01-15 10:30:00"), ("n", "42")]
      "t" "a b c" rfl rfl).2.1 (by decide),
   (get_conversions_spec
      (ResultSet.mk [[("t", "a b c"), ("d", "2024-01-15 10:30:00"), ("n", "42")]] 0)
      [("t", "a b c"), ("d", "2024-01-15 10:30:00"), ("n", "42")]
      "n" "42" rfl rfl).2.2.2 rfl,
   (get_conversions_spec
      (ResultSet.mk [[("t", "a b c"), ("d", "2024-01-15 10:30:00"), ("n", "42")]] 0)
      [("t", "a b c"), ("d", "2024-01-15 10:30:00"), ("n", "42")]
      "d" "2024-01-15 10:30:00" rfl rfl).2.2.1 rfl⟩

/-- C8: with the cursor on a valid row, get throws the ColumnNotFound error kind
iff the column name is absent from the current row (the row the stored container
holds at the cursor position); when the name is present get succeeds with the
extraction of the stored value of exactly that row; and ColumnNotFound is
distinguishable from the generic SQLite3Error kind. -/
theorem get_column_not_found_spec {α : Type} (extract : String → α)
    (rs : ResultSet) (row : Row) (name : String)
    (hrow : rs.container.get? rs.iterator = some row) :
    (ResultSet.getWith extract rs name
        = some (Except.error (SQLite3Err.columnNotFound name))
      ↔ Row.find row name = none) ∧
    (∀ v, Row.find row name = some v →
      ResultSet.getWith extract rs name = some (Except.ok (extract v))) ∧
    (∀ m c, SQLite3Err.columnNotFound c ≠ SQLite3Err.sqlite3Error m) := by
  refine ⟨⟨?_, ?_⟩, ?_, ?_⟩
  · intro h
    cases hf : Row.find row name with
    | none => rfl
    | some v =>
      have hok : ResultSet.getWith extract rs name
          = some (Except.ok (extract v)) := by
        unfold ResultSet.getWith
        rw [hrow]
        simp [rowGet, hf]
      rw [hok] at h
      exact absurd (Option.some.inj h) (fun hx => Except.noConfusion hx)
  · intro h
    unfold ResultSet.getWith
    rw [hrow]
    simp [rowGet, h]
  · intro v hf
    unfold ResultSet.getWith
    rw [hrow]
    simp [rowGet, hf]
  · intro m c h
    exact SQLite3Err.noConfusion h

/-- C8 witness: the theorem applied on a concrete one-column row, looking up a
missing name and the present name. -/
theorem get_column_not_found_spec_witness :
    ResultSet.getWith extractInt (ResultSet.mk [[("a", "1")]] 0) "zz"
      = some (Except.error (SQLite3Err.columnNotFound "zz")) ∧
    ResultSet.getWith extractInt (ResultSet.mk [[("a", "1")]] 0) "a"
      = some (Except.ok 1) :=
  ⟨((get_column_not_found_spec extractInt (ResultSet.mk [[("a", "1")]] 0)
      [("a", "1")] "zz" rfl).1).mpr rfl,
   (get_column_not_found_spec extractInt (ResultSet.mk [[("a", "1")]] 0)
      [("a", "1")] "a" rfl).2.1 "1" rfl⟩

/-- C9: move assignment nulls the source statement and connection handles, so
destroying the moved-from source finalizes nothing (safe and idempotent), and
finalizes exactly the statement handle the destination already owned before
adopting the source handles; this holds for every destination state, including a
destination that was itself just produced by move construction; move construction
(delegating to move assignment from an arbitrary initial state) likewise leaves
its source with null handles. -/
theorem preparedStatement_move_spec (dest src garbage src2 : PSState) :
    ((PreparedStatement.moveAssign dest src).2.1.stmt = none ∧
     (PreparedStatement.moveAssign dest src).2.1.db = none ∧
     PreparedStatement.destruct (PreparedStatement.moveAssign dest src).2.1 = [] ∧
     (PreparedStatement.moveAssign dest src).2.2 = PreparedStatement.destruct dest ∧
     (PreparedStatement.moveAssign dest src).1.stmt = src.stmt ∧
     (PreparedStatement.moveAssign dest src).1.db = src.db) ∧
    ((PreparedStatement.moveConstruct garbage src).2.1.stmt = none ∧
     (PreparedStatement.moveConstruct garbage src).2.1.db = none ∧
     PreparedStatement.destruct
       (PreparedStatement.moveConstruct garbage src).2.1 = []) ∧
    ((PreparedStatement.moveAssign
        (PreparedStatement.moveConstruct garbage src).1 src2).2.2
      = PreparedStatement.destruct (PreparedStatement.moveConstruct garbage src).1) := by
  refine ⟨⟨rfl, rfl, rfl, ?_, rfl, rfl⟩, ⟨rfl, rfl, rfl⟩, ?_⟩
  · cases hd : dest.stmt <;>
      simp [PreparedStatement.moveAssign, PreparedStatement.destruct, hd]
  · cases hs : src.stmt <;>
      simp [PreparedStatement.moveAssign, PreparedStatement.moveConstruct,
        PreparedStatement.destruct, hs]

-- Helper: folding addRecord appends the records in order to the container.
theorem foldl_addRecord_container (l : List Row) :
    ∀ (rs : ResultSet),
      (l.foldl ResultSet.addRecord rs).container = rs.container ++ l := by
  induction l with
  | nil =>
    intro rs
    simp
  | cons r t ih =>
    intro rs
    simp only [List.foldl_cons, ih]
    simp [ResultSet.addRecord]

-- Helper: the step loop consumes exactly the leading run of row statuses and
-- stops at the first other status, whatever that status is and whatever follows.
theorem executeQueryLoop_rows (rows : List (List (String × String))) (c : Int)
    (p : List (String × String)) (rest : List (Int × List (String × String)))
    (hc : c ≠ SQLITE_ROW) :
    ∀ (rs : ResultSet),
      executeQueryLoop (rows.map (fun r => (SQLITE_ROW, r)) ++ (c, p) :: rest) rs
        = (rows.map buildRecord).foldl ResultSet.addRecord rs := by
  induction rows with
  | nil =>
    intro rs
    have hcb : (c == SQLITE_ROW) = false := by
      simp [hc]
    simp [executeQueryLoop, hcb]
  | cons r t ih =>
    intro rs
    simp [executeQueryLoop, ih]

/-- C10: executeQuery never raises an error: the step loop stops at the first
step status other than row-available, whether that status is done or an error
code, and returns the ResultSet holding exactly the records built from the rows
collected up to that point; two step streams with the same row prefix and any
non-row terminal statuses (and anything after them) produce equal ResultSets, so
an engine error during stepping is indistinguishable from normal completion. -/
theorem executeQuery_no_error_spec (rows : List (List (String × String)))
    (c c2 : Int) (p p2 : List (String × String))
    (rest rest2 : List (Int × List (String × String)))
    (hc : c ≠ SQLITE_ROW) (hc2 : c2 ≠ SQLITE_ROW) :
    (PreparedStatement.executeQuery
        (rows.map (fun r => (SQLITE_ROW, r)) ++ (c, p) :: rest)).container
      = rows.map buildRecord ∧
    PreparedStatement.executeQuery
        (rows.map (fun r => (SQLITE_ROW, r)) ++ (c, p) :: rest)
      = PreparedStatement.executeQuery
          (rows.map (fun r => (SQLITE_ROW, r)) ++ (c2, p2) :: rest2) := by
  constructor
  · rw [PreparedStatement.executeQuery, executeQueryLoop_rows rows c p rest hc]
    simp [foldl_addRecord_container, ResultSet.empty]
  · rw [PreparedStatement.executeQuery, PreparedStatement.executeQuery,
      executeQueryLoop_rows rows c p rest hc,
      executeQueryLoop_rows rows c2 p2 rest2 hc2]

/-- C10 witness: a step stream ending in the error status 1 yields the same
ResultSet as a stream ending in SQLITE_DONE, even when rows follow the error. -/
theorem executeQuery_no_error_spec_witness :
    PreparedStatement.executeQuery [(SQLITE_ROW, [("a", "1")]), (1, [])]
      = PreparedStatement.executeQuery
          [(SQLITE_ROW, [("a", "1")]), (SQLITE_DONE, []),
           (SQLITE_ROW, [("z", "9")])] :=
  (executeQuery_no_error_spec [[("a", "1")]] 1 SQLITE_DONE [] [] []
    [(SQLITE_ROW, [("z", "9")])] (by decide) (by decide)).2

end MSQLite3
